import Mathlib

/- Verification development for the lala-search crawl agent.

   The Rust sources are shallowly embedded: timestamps (`CqlTimestamp`,
   `chrono::DateTime`) become `Int` milliseconds since the epoch, machine
   integers (`i32`, `i64`) become `Int`, UUIDs become `Nat`, and the external
   collaborators (the `url` crate parser, the network, the scraper HTML
   parser, the md5 crate, flate2 compression) are passed in as explicit
   function parameters.  Database effects are modelled as pure updates of a
   `DbState` record. -/

/-- Compression tag for stored page bodies (`models/storage.rs`). -/
inductive CompressionType where
  | none
  | gzip
deriving DecidableEq, Repr

/-- File extension used in the object-store key (`CompressionType::file_extension`). -/
def CompressionType.file_extension : CompressionType → String
  | CompressionType.none => "html"
  | CompressionType.gzip => "html.gz"

/-- Content-type header for the object store (`CompressionType::content_type`). -/
def CompressionType.content_type : CompressionType → String
  | CompressionType.none => "text/html"
  | CompressionType.gzip => "application/gzip"

/-- Error taxonomy of the crawl pipeline (`models/db.rs`, enum `CrawlErrorType`). -/
inductive CrawlErrorType where
  | fetchError
  | storageError
  | databaseError
  | searchIndexError
  | robotsDisallowed
  | invalidUrl
  | unknown
deriving DecidableEq, Repr

/-- Entry in the crawl queue (`models/db.rs`, struct `CrawlQueueEntry`).
    Timestamps are `Int` milliseconds. -/
structure CrawlQueueEntry where
  priority : Int
  scheduled_at : Int
  url : String
  domain : String
  last_attempt_at : Option Int
  attempt_count : Int
  created_at : Int
deriving DecidableEq, Repr

/-- Crawled page metadata row (`models/db.rs`, struct `CrawledPage`). -/
structure CrawledPage where
  domain : String
  url_path : String
  url : String
  storage_id : Option Nat
  storage_compression : CompressionType
  last_crawled_at : Int
  next_crawl_at : Int
  crawl_frequency_hours : Int
  http_status : Int
  content_hash : String
  content_length : Int
  robots_allowed : Bool
  error_message : Option String
  crawl_count : Int
  created_at : Int
  updated_at : Int
deriving DecidableEq, Repr

/-- Crawl error row (`models/db.rs`, struct `CrawlError`). -/
structure CrawlError where
  domain : String
  occurred_at : Int
  url : String
  error_type : CrawlErrorType
  error_message : String
  attempt_count : Int
  stack_trace : Option String
deriving DecidableEq, Repr

/-- Result of the `url` crate's `Url::parse`, reduced to the two pieces the
    agent reads: `host_str()` and `path()`.  The parser itself is external,
    so the embedding passes a `parse : String → Option Url` function around. -/
structure Url where
  host : Option String
  path : String
deriving DecidableEq, Repr

/-- Tenant keyspace database state: the tables touched by the pipeline.
    Cassandra queries are modelled as pure reads and updates of this record. -/
structure DbState where
  queue : List CrawlQueueEntry
  pages : List CrawledPage
  allowed_domains : List String
  errors : List CrawlError
deriving DecidableEq, Repr

/-- Insert a queue row (`CassandraClient::insert_queue_entry`). -/
def insert_queue_entry (s : DbState) (e : CrawlQueueEntry) : DbState :=
  { s with queue := e :: s.queue }

/-- Append a crawl error row (`CassandraClient::log_crawl_error`). -/
def log_crawl_error (s : DbState) (e : CrawlError) : DbState :=
  { s with errors := e :: s.errors }

/-- Single-row page lookup by primary key (`CassandraClient::get_crawled_page`). -/
def get_crawled_page (s : DbState) (domain url_path : String) : Option CrawledPage :=
  s.pages.find? (fun p => p.domain == domain && p.url_path == url_path)

/-- Existence check used by link admission (`CassandraClient::crawled_page_exists`). -/
def crawled_page_exists (s : DbState) (domain url_path : String) : Bool :=
  (get_crawled_page s domain url_path).isSome

/-- Allow-list membership (`CassandraClient::is_domain_allowed`). -/
def is_domain_allowed (s : DbState) (domain : String) : Bool :=
  s.allowed_domains.contains domain

/-- Upsert of a page row by its (domain, url_path) key
    (`CassandraClient::upsert_crawled_page`; the stats-counter side effect is
    out of scope of the claims and not modelled). -/
def upsert_crawled_page (s : DbState) (p : CrawledPage) : DbState :=
  { s with pages :=
      p :: s.pages.filter (fun q => !(q.domain == p.domain && q.url_path == p.url_path)) }

/-- Maximum number of retry attempts before giving up on a URL
    (`queue_processor.rs`, const `MAX_RETRY_ATTEMPTS`). -/
def MAX_RETRY_ATTEMPTS : Int := 5

/-- The fresh queue row built by `CassandraClient::requeue_with_retry`:
    priority+1, attempt_count+1, `last_attempt_at = now`, exponential backoff
    of `2^attempt_count` minutes, `created_at` preserved.  `now` is in
    milliseconds, so one minute is 60000. -/
def requeue_entry (now : Int) (entry : CrawlQueueEntry) : CrawlQueueEntry :=
  let backoff_minutes : Int := 2 ^ entry.attempt_count.toNat
  { priority := entry.priority + 1
    scheduled_at := now + backoff_minutes * 60000
    url := entry.url
    domain := entry.domain
    last_attempt_at := some now
    attempt_count := entry.attempt_count + 1
    created_at := entry.created_at }

/-- Requeue an entry for retry (`CassandraClient::requeue_with_retry`):
    builds the backoff row and inserts it. -/
def requeue_with_retry (now : Int) (s : DbState) (entry : CrawlQueueEntry) : DbState :=
  insert_queue_entry s (requeue_entry now entry)

/-- Retry decision of `QueueProcessor::handle_crawl_failure`:
    `RobotsDisallowed | InvalidUrl => false, _ => attempt_count < MAX_RETRY_ATTEMPTS`. -/
def should_retry (error_type : CrawlErrorType) (attempt_count : Int) : Bool :=
  match error_type with
  | CrawlErrorType.robotsDisallowed => false
  | CrawlErrorType.invalidUrl => false
  | _ => decide (attempt_count < MAX_RETRY_ATTEMPTS)

theorem should_retry_terminal (et : CrawlErrorType) (a : Int)
    (h : et = CrawlErrorType.robotsDisallowed ∨ et = CrawlErrorType.invalidUrl) :
    should_retry et a = false := by
  rcases h with h | h <;> subst h <;> rfl

theorem should_retry_other (et : CrawlErrorType) (a : Int)
    (hn1 : et ≠ CrawlErrorType.robotsDisallowed) (hn2 : et ≠ CrawlErrorType.invalidUrl) :
    should_retry et a = decide (a < MAX_RETRY_ATTEMPTS) := by
  cases et <;> first | rfl | exact absurd rfl hn1 | exact absurd rfl hn2

/-- Failure handler of the queue processor
    (`QueueProcessor::handle_crawl_failure`): derive the error row's domain
    from the entry's URL (falling back to `entry.domain`), log a `CrawlError`
    row, and requeue unless the error kind is terminal or the attempt budget
    is exhausted. -/
def handle_crawl_failure (parse : String → Option Url) (now : Int) (s : DbState)
    (entry : CrawlQueueEntry) (error_type : CrawlErrorType) (error_message : String) :
    DbState :=
  let domain : String :=
    match parse entry.url with
    | some u => u.host.getD entry.domain
    | Option.none => entry.domain
  let crawl_error : CrawlError :=
    { domain := domain
      occurred_at := now
      url := entry.url
      error_type := error_type
      error_message := error_message
      attempt_count := entry.attempt_count + 1
      stack_trace := Option.none }
  let s1 := log_crawl_error s crawl_error
  if should_retry error_type entry.attempt_count then requeue_with_retry now s1 entry
  else s1

/-- C1: for a classified pipeline failure, a CrawlError row is always written;
    `robots_disallowed` and `invalid_url` are terminal (no retry row); every
    other kind inserts a retry row exactly when `attempt_count < 5`. -/
theorem handle_crawl_failure_spec
    (parse : String → Option Url) (now : Int) (s : DbState)
    (entry : CrawlQueueEntry) (et : CrawlErrorType) (msg : String) :
    (∃ e, (handle_crawl_failure parse now s entry et msg).errors = e :: s.errors
        ∧ e.error_type = et ∧ e.url = entry.url ∧ e.error_message = msg)
    ∧ ((et = CrawlErrorType.robotsDisallowed ∨ et = CrawlErrorType.invalidUrl) →
        (handle_crawl_failure parse now s entry et msg).queue = s.queue)
    ∧ (et ≠ CrawlErrorType.robotsDisallowed → et ≠ CrawlErrorType.invalidUrl →
        ((entry.attempt_count < MAX_RETRY_ATTEMPTS →
            (handle_crawl_failure parse now s entry et msg).queue
              = requeue_entry now entry :: s.queue)
          ∧ (MAX_RETRY_ATTEMPTS ≤ entry.attempt_count →
            (handle_crawl_failure parse now s entry et msg).queue = s.queue))) := by
  refine ⟨?_, ?_, ?_⟩
  · simp only [handle_crawl_failure, log_crawl_error, requeue_with_retry, insert_queue_entry]
    split <;> exact ⟨_, rfl, rfl, rfl, rfl⟩
  · intro h
    simp only [handle_crawl_failure, log_crawl_error, requeue_with_retry, insert_queue_entry,
      should_retry_terminal et entry.attempt_count h, Bool.false_eq_true, if_false]
  · intro hn1 hn2
    simp only [handle_crawl_failure, log_crawl_error, requeue_with_retry, insert_queue_entry,
      should_retry_other et entry.attempt_count hn1 hn2, decide_eq_true_eq]
    refine ⟨fun hlt => ?_, fun hge => ?_⟩
    · rw [if_pos hlt]
    · rw [if_neg (not_lt.mpr hge)]

/-- Shared fixture: a typical queue entry. -/
def entryW : CrawlQueueEntry :=
  { priority := 1
    scheduled_at := 0
    url := "https://example.org/a"
    domain := "example.org"
    last_attempt_at := Option.none
    attempt_count := 0
    created_at := 0 }

/-- Shared fixture: an initially empty tenant database. -/
def dbW : DbState :=
  { queue := [], pages := [], allowed_domains := ["example.org"], errors := [] }

/-- Witness for C1: a fetch error on a first-attempt entry is requeued. -/
theorem handle_crawl_failure_spec_witness :
    (handle_crawl_failure (fun _ => Option.none) 0 dbW entryW
        CrawlErrorType.fetchError ("m")).queue
      = requeue_entry 0 entryW :: dbW.queue := by
  have h := handle_crawl_failure_spec (fun _ => Option.none) 0 dbW entryW
    CrawlErrorType.fetchError ("m")
  exact (h.2.2 (by decide) (by decide)).1 (by decide)

/-- C2: requeueing inserts exactly one new queue row, with priority+1,
    attempt_count+1, `last_attempt_at = now`,
    `scheduled_at = now + 2^attempt_count` minutes, and `created_at`
    preserved.  The hypothesis `0 ≤ attempt_count` reflects the source's
    `as u32` cast of the attempt counter. -/
theorem requeue_with_retry_spec (now : Int) (s : DbState) (entry : CrawlQueueEntry)
    (h : 0 ≤ entry.attempt_count) :
    (requeue_with_retry now s entry).queue = requeue_entry now entry :: s.queue
    ∧ (requeue_with_retry now s entry).pages = s.pages
    ∧ (requeue_with_retry now s entry).errors = s.errors
    ∧ (requeue_entry now entry).priority = entry.priority + 1
    ∧ (requeue_entry now entry).attempt_count = entry.attempt_count + 1
    ∧ (requeue_entry now entry).last_attempt_at = some now
    ∧ (requeue_entry now entry).scheduled_at
        = now + 2 ^ entry.attempt_count.toNat * 60000
    ∧ ((requeue_entry now entry).attempt_count.toNat = entry.attempt_count.toNat + 1)
    ∧ (requeue_entry now entry).created_at = entry.created_at
    ∧ (requeue_entry now entry).url = entry.url := by
  refine ⟨rfl, rfl, rfl, rfl, rfl, rfl, rfl, ?_, rfl, rfl⟩
  simp [requeue_entry]
  omega

/-- Witness for C2 at a concrete entry with attempt_count 3: backoff is
    exactly 8 minutes. -/
theorem requeue_with_retry_spec_witness :
    (requeue_with_retry 100 dbW { entryW with attempt_count := 3 }).queue
      = requeue_entry 100 { entryW with attempt_count := 3 } :: dbW.queue
    ∧ (requeue_entry 100 { entryW with attempt_count := 3 }).scheduled_at
      = 100 + 8 * 60000 := by
  have h := requeue_with_retry_spec 100 dbW { entryW with attempt_count := 3 } (by decide)
  exact ⟨h.1, by rw [h.2.2.2.2.2.2.1]; decide⟩

/-- Needle-is-a-prefix test over sequences (models Rust `starts_with`
    at the byte or char level). -/
def starts_with_seq {α : Type} [BEq α] : List α → List α → Bool
  | _, [] => true
  | [], _ :: _ => false
  | a :: as, b :: bs => a == b && starts_with_seq as bs

/-- Substring search (models Rust `str::contains` / `str::find` matching). -/
def contains_seq {α : Type} [BEq α] (needle : List α) : List α → Bool
  | [] => starts_with_seq [] needle
  | a :: t => starts_with_seq (a :: t) needle || contains_seq needle t

/-- ASCII lowercasing of one character (A-Z to a-z, all else unchanged). -/
def ascii_char_to_lower (c : Char) : Char :=
  if 65 ≤ c.toNat ∧ c.toNat ≤ 90 then Char.ofNat (c.toNat + 32) else c

/-- ASCII lowercasing of a character sequence.  This models Rust's
    `to_lowercase` on the inputs the directive parser cares about: the
    directive tokens are ASCII, where the two agree. -/
def ascii_lower (l : List Char) : List Char :=
  l.map ascii_char_to_lower

/-- Rust `str::eq_ignore_ascii_case`. -/
def eq_ignore_ascii_case (a b : String) : Bool :=
  ascii_lower a.data == ascii_lower b.data

/-- Robots directives extracted from HTML meta tags or the X-Robots-Tag
    header (`queue_processor.rs`, struct `RobotsMetaDirectives`). -/
structure RobotsMetaDirectives where
  noindex : Bool := false
  nofollow : Bool := false
deriving DecidableEq, Repr

/-- Merge two directive sets, most restrictive wins
    (`RobotsMetaDirectives::merge`). -/
def RobotsMetaDirectives.merge (self other : RobotsMetaDirectives) :
    RobotsMetaDirectives :=
  { noindex := self.noindex || other.noindex
    nofollow := self.nofollow || other.nofollow }

/-- Parse a robots directive string (`parse_robots_directive_string`):
    lowercase, then substring checks for `none`, `noindex`, `nofollow`. -/
def parse_robots_directive_string (content : String) : RobotsMetaDirectives :=
  let content_lower := ascii_lower content.data
  if contains_seq ("none").data content_lower then { noindex := true, nofollow := true }
  else
    { noindex := contains_seq ("noindex").data content_lower
      nofollow := contains_seq ("nofollow").data content_lower }

/-- Parse the X-Robots-Tag header value (`parse_x_robots_tag`). -/
def parse_x_robots_tag (header_value : Option String) : RobotsMetaDirectives :=
  match header_value with
  | some value => parse_robots_directive_string value
  | Option.none => {}

/-- Abstract result of the scraper crate's HTML parse: the `meta[name]`
    elements as (name attribute, content attribute) pairs in document order,
    and the output of `extract_links` for the document (link extraction and
    URL resolution use the external scraper and url crates). -/
structure HtmlParse where
  metaElems : List (String × String)
  links : List String

/-- Extract robots directives from the document's meta elements
    (`extract_robots_meta_directives`): the loop returns the parsed content
    of the first `meta[name]` element whose name equals `robots`
    case-insensitively, or the default. -/
def find_robots_meta : List (String × String) → RobotsMetaDirectives
  | [] => {}
  | (name, content) :: rest =>
    if eq_ignore_ascii_case name ("robots") then parse_robots_directive_string content
    else find_robots_meta rest

/-- Directives of a parsed document (`extract_robots_meta_directives`). -/
def extract_robots_meta_directives (doc : HtmlParse) : RobotsMetaDirectives :=
  find_robots_meta doc.metaElems

/-- Combined robots directives from the HTML meta tag and the X-Robots-Tag
    header (`get_robots_directives`); most restrictive rule applies. -/
def get_robots_directives (doc : HtmlParse) (x_robots_tag : Option String) :
    RobotsMetaDirectives :=
  (extract_robots_meta_directives doc).merge (parse_x_robots_tag x_robots_tag)

/-- Request to crawl a URL (`models/crawler.rs`, struct `CrawlRequest`). -/
structure CrawlRequest where
  url : String
  user_agent : String

/-- Result of a crawl (`models/crawler.rs`, struct `CrawlResult`). -/
structure CrawlResult where
  url : String
  allowed_by_robots : Bool
  content : Option String
  error : Option String
  x_robots_tag : Option String

/-- External network behaviour seen by the fetcher: the robots.txt verdict
    for a user agent and URL (`Robot::allowed` after fetching and parsing
    robots.txt), and the page GET, which yields the body text plus the
    optional X-Robots-Tag header, or a request error. -/
structure Net where
  robots_allows : String → String → Bool
  fetch : String → Except String (String × Option String)

/-- The fetcher (`services/crawler.rs`, fn `crawl_url`).  Returns the
    `CrawlResult` together with a flag recording whether any network request
    was issued: an unparsable URL returns before the robots.txt GET, so no
    network call happens for it. -/
def crawl_url (parse : String → Option Url) (net : Net) (request : CrawlRequest) :
    CrawlResult × Bool :=
  match parse request.url with
  | Option.none =>
    ({ url := request.url
       allowed_by_robots := false
       content := Option.none
       error := some ("Invalid URL")
       x_robots_tag := Option.none }, false)
  | some _ =>
    if net.robots_allows request.user_agent request.url then
      match net.fetch request.url with
      | Except.ok bodyTag =>
        ({ url := request.url
           allowed_by_robots := true
           content := some bodyTag.1
           error := Option.none
           x_robots_tag := bodyTag.2 }, true)
      | Except.error e =>
        ({ url := request.url
           allowed_by_robots := true
           content := Option.none
           error := some e
           x_robots_tag := Option.none }, true)
    else
      ({ url := request.url
         allowed_by_robots := false
         content := Option.none
         error := Option.none
         x_robots_tag := Option.none }, true)

/-- One lowercase hexadecimal digit; the argument is reduced mod 16, which
    is the identity for the nibbles of a `u8`. -/
def hexDigitChar (n : Nat) : Char :=
  let m := n % 16
  if m < 10 then Char.ofNat (48 + m) else Char.ofNat (87 + m)

/-- Character list of the `{:02x}` rendering of a digest: two lowercase hex
    digits per byte, high nibble first (the md5 crate's `LowerHex` instance
    used by `format!("{:x}", md5::compute(..))`). -/
def digestHexChars : List Nat → List Char
  | [] => []
  | b :: rest => hexDigitChar (b / 16) :: hexDigitChar b :: digestHexChars rest

/-- Lowercase hex encoding of a digest given as its byte list. -/
def digestHex (d : List Nat) : String :=
  String.mk (digestHexChars d)

/-- Recognizer for lowercase hexadecimal digits (0-9, a-f). -/
def is_lower_hex_digit (c : Char) : Bool :=
  (decide (48 ≤ c.toNat) && decide (c.toNat ≤ 57))
    || (decide (97 ≤ c.toNat) && decide (c.toNat ≤ 102))

theorem is_lower_hex_hexDigitChar (n : Nat) :
    is_lower_hex_digit (hexDigitChar n) = true := by
  unfold hexDigitChar
  have h16 : n % 16 < 16 := Nat.mod_lt _ (by norm_num)
  set m := n % 16 with hm
  interval_cases m <;> decide

theorem digestHex_lower (d : List Nat) :
    ∀ c ∈ (digestHex d).data, is_lower_hex_digit c = true := by
  induction d with
  | nil => intro c hc; simp [digestHex, digestHexChars] at hc
  | cons b rest ih =>
    intro c hc
    have hc2 : c = hexDigitChar (b / 16) ∨ c = hexDigitChar b
        ∨ c ∈ (digestHex rest).data := by
      simpa [digestHex, digestHexChars] using hc
    rcases hc2 with h1 | h1 | h1
    · rw [h1]; exact is_lower_hex_hexDigitChar _
    · rw [h1]; exact is_lower_hex_hexDigitChar _
    · exact ih c h1

/-- Milliseconds in an hour (`chrono::Duration::hours`). -/
def HOUR_MS : Int := 3600000

/-- Build the page row from a crawl result
    (`QueueProcessor::create_crawled_page`).  `md5` is the external md5 crate
    digest, as the 16 bytes of the 128-bit digest; `Option.none` models the
    `Err` return when the entry URL does not parse.  `content.len()` is the
    UTF-8 byte length of the body. -/
def create_crawled_page (parse : String → Option Url) (md5 : String → List Nat)
    (now : Int) (s : DbState) (entry : CrawlQueueEntry) (result : CrawlResult)
    (storage_id : Option Nat) (storage_compression : CompressionType) :
    Option CrawledPage :=
  match parse entry.url with
  | Option.none => Option.none
  | some parsed_url =>
    let domain := parsed_url.host.getD entry.domain
    let url_path := parsed_url.path
    let crawl_frequency_hours : Int := 24
    let next_crawl_at := now + crawl_frequency_hours * HOUR_MS
    let hashLen : String × Int :=
      match result.content with
      | some content => (digestHex (md5 content), (content.utf8ByteSize : Int))
      | Option.none => ("", 0)
    let http_status : Int :=
      if result.allowed_by_robots then
        if result.content.isSome then 200 else 500
      else 403
    let existing_page := get_crawled_page s domain url_path
    let cc : Int × Int :=
      match existing_page with
      | some existing => (existing.crawl_count + 1, existing.created_at)
      | Option.none => (1, now)
    some
      { domain := domain
        url_path := url_path
        url := entry.url
        storage_id := storage_id
        storage_compression := storage_compression
        last_crawled_at := now
        next_crawl_at := next_crawl_at
        crawl_frequency_hours := crawl_frequency_hours
        http_status := http_status
        content_hash := hashLen.1
        content_length := hashLen.2
        robots_allowed := result.allowed_by_robots
        error_message := result.error
        crawl_count := cc.1
        created_at := cc.2
        updated_at := now }

/-- C4: for a successfully fetched and stored entry, the page row carries the
    lowercase hex MD5 of the body as content_hash, the body's byte length as
    content_length, `next_crawl_at = last_crawled_at + crawl_frequency_hours`
    (default 24) in hours, and the crawl_count / created_at continuation of
    any prior row for the same (domain, url_path). -/
theorem create_crawled_page_spec (parse : String → Option Url)
    (md5 : String → List Nat) (now : Int) (s : DbState) (entry : CrawlQueueEntry)
    (result : CrawlResult) (sid : Option Nat) (comp : CompressionType)
    (u : Url) (body : String)
    (hu : parse entry.url = some u) (hc : result.content = some body) :
    ∃ page, create_crawled_page parse md5 now s entry result sid comp = some page
      ∧ page.domain = u.host.getD entry.domain
      ∧ page.url_path = u.path
      ∧ page.content_hash = digestHex (md5 body)
      ∧ (∀ c ∈ page.content_hash.data, is_lower_hex_digit c = true)
      ∧ page.content_length = (body.utf8ByteSize : Int)
      ∧ page.crawl_frequency_hours = 24
      ∧ page.last_crawled_at = now
      ∧ page.next_crawl_at = page.last_crawled_at + page.crawl_frequency_hours * HOUR_MS
      ∧ (∀ prior, get_crawled_page s (u.host.getD entry.domain) u.path = some prior →
          page.crawl_count = prior.crawl_count + 1 ∧ page.created_at = prior.created_at)
      ∧ (get_crawled_page s (u.host.getD entry.domain) u.path = Option.none →
          page.crawl_count = 1 ∧ page.created_at = now) := by
  simp only [create_crawled_page, hu, hc]
  refine ⟨_, rfl, rfl, rfl, rfl, ?_, rfl, rfl, rfl, rfl, ?_, ?_⟩
  · exact digestHex_lower (md5 body)
  · intro prior hprior
    simp only [hprior]
    exact ⟨trivial, trivial⟩
  · intro hnone
    simp only [hnone]
    exact ⟨trivial, trivial⟩

/-- Shared fixture: a parser that maps every URL to host `example.org`,
    path `/a`. -/
def parseW : String → Option Url :=
  fun _ => some { host := some ("example.org"), path := "/a" }

/-- Shared fixture: a digest function standing in for the md5 crate. -/
def md5W : String → List Nat :=
  fun s => List.replicate 15 0 ++ [s.utf8ByteSize % 256]

/-- Shared fixture: a successful crawl result with body `<p>hi</p>`. -/
def resultW : CrawlResult :=
  { url := "https://example.org/a"
    allowed_by_robots := true
    content := some ("<p>hi</p>")
    error := Option.none
    x_robots_tag := Option.none }

/-- Witness for C4: on the empty database the concrete page row has
    crawl_count 1, created_at now, and the expected hash and length. -/
theorem create_crawled_page_spec_witness :
    ∃ page, create_crawled_page parseW md5W 7 dbW entryW resultW (some 3)
        CompressionType.none = some page
      ∧ page.content_hash = digestHex (md5W ("<p>hi</p>"))
      ∧ page.content_length = 9
      ∧ page.crawl_count = 1
      ∧ page.created_at = 7
      ∧ page.next_crawl_at = page.last_crawled_at + page.crawl_frequency_hours * HOUR_MS := by
  obtain ⟨page, h1, h2, h3, h4, h5, h6, h7, h8, h9, h10, h11⟩ :=
    create_crawled_page_spec parseW md5W 7 dbW entryW resultW (some 3)
      CompressionType.none { host := some ("example.org"), path := "/a" }
      ("<p>hi</p>") rfl rfl
  obtain ⟨h12, h13⟩ := h11 rfl
  exact ⟨page, h1, h4, by rw [h6]; rfl, h12, h13, h9⟩

/-- Enqueue one discovered link if admissible
    (`QueueProcessor::enqueue_link`): skip when the link does not parse, its
    host is empty, the host is not in the allow-list, or the (host, path)
    already exists in CrawledPage; otherwise insert a queue row with the
    parent's priority, `scheduled_at = created_at = now`, `attempt_count = 0`.
    Returns the updated state and the inserted row, if any. -/
def enqueue_link (parse : String → Option Url) (now : Int) (s : DbState)
    (link : String) (parent_entry : CrawlQueueEntry) :
    DbState × Option CrawlQueueEntry :=
  match parse link with
  | Option.none => (s, Option.none)
  | some parsed =>
    let domain := parsed.host.getD ""
    if domain = "" then (s, Option.none)
    else
      let url_path := parsed.path
      if is_domain_allowed s domain = false then (s, Option.none)
      else if crawled_page_exists s domain url_path then (s, Option.none)
      else
        let new_entry : CrawlQueueEntry :=
          { priority := parent_entry.priority
            scheduled_at := now
            url := link
            domain := domain
            last_attempt_at := Option.none
            attempt_count := 0
            created_at := now }
        (insert_queue_entry s new_entry, some new_entry)

/-- Link-discovery loop (`QueueProcessor::enqueue_meet_links`): enqueue each
    extracted link in order, threading the database state, and collect the
    inserted rows.  (The `count_crawled_pages` call's result is discarded by
    the source.) -/
def enqueue_meet_links (parse : String → Option Url) (now : Int) (s : DbState)
    (links : List String) (parent_entry : CrawlQueueEntry) :
    DbState × List CrawlQueueEntry :=
  match links with
  | [] => (s, [])
  | l :: rest =>
    let r := enqueue_link parse now s l parent_entry
    let rr := enqueue_meet_links parse now r.1 rest parent_entry
    (rr.1, (match r.2 with
            | some e => e :: rr.2
            | Option.none => rr.2))

/-- C6: a discovered link yields no queue row when it is unparsable, has an
    empty host, a host missing from AllowedDomain, or a (host, path) already
    in CrawledPage; otherwise exactly one queue row is inserted, carrying the
    parent's priority, `scheduled_at = created_at = now` and
    `attempt_count = 0`. -/
theorem enqueue_link_spec (parse : String → Option Url) (now : Int) (s : DbState)
    (link : String) (parent_entry : CrawlQueueEntry) :
    (parse link = Option.none → enqueue_link parse now s link parent_entry = (s, Option.none))
    ∧ (∀ u, parse link = some u → u.host.getD "" = "" →
        enqueue_link parse now s link parent_entry = (s, Option.none))
    ∧ (∀ u, parse link = some u → u.host.getD "" ≠ "" →
        is_domain_allowed s (u.host.getD "") = false →
        enqueue_link parse now s link parent_entry = (s, Option.none))
    ∧ (∀ u, parse link = some u → u.host.getD "" ≠ "" →
        is_domain_allowed s (u.host.getD "") = true →
        crawled_page_exists s (u.host.getD "") u.path = true →
        enqueue_link parse now s link parent_entry = (s, Option.none))
    ∧ (∀ u, parse link = some u → u.host.getD "" ≠ "" →
        is_domain_allowed s (u.host.getD "") = true →
        crawled_page_exists s (u.host.getD "") u.path = false →
        ∃ e, enqueue_link parse now s link parent_entry = (insert_queue_entry s e, some e)
          ∧ e.priority = parent_entry.priority
          ∧ e.scheduled_at = now
          ∧ e.created_at = now
          ∧ e.attempt_count = 0
          ∧ e.url = link
          ∧ e.domain = u.host.getD "") := by
  refine ⟨?_, ?_, ?_, ?_, ?_⟩
  · intro hp
    simp [enqueue_link, hp]
  · intro u hp hempty
    simp [enqueue_link, hp, hempty]
  · intro u hp hempty hallow
    simp [enqueue_link, hp, hempty, hallow]
  · intro u hp hempty hallow hexists
    simp [enqueue_link, hp, hempty, hallow, hexists]
  · intro u hp hempty hallow hexists
    refine ⟨{ priority := parent_entry.priority, scheduled_at := now, url := link,
              domain := u.host.getD "", last_attempt_at := Option.none,
              attempt_count := 0, created_at := now }, ?_, rfl, rfl, rfl, rfl, rfl, rfl⟩
    simp [enqueue_link, hp, hempty, hallow, hexists]

/-- Witness for C6: a fresh link to the allow-listed host is enqueued with
    the parent's priority and attempt_count 0. -/
theorem enqueue_link_spec_witness :
    ∃ e, enqueue_link parseW 5 dbW ("https://example.org/a") entryW
        = (insert_queue_entry dbW e, some e)
      ∧ e.priority = entryW.priority ∧ e.attempt_count = 0
      ∧ e.scheduled_at = 5 ∧ e.created_at = 5 := by
  obtain ⟨e, he, h1, h2, h3, h4, h5, h6⟩ :=
    (enqueue_link_spec parseW 5 dbW ("https://example.org/a") entryW).2.2.2.2
      { host := some ("example.org"), path := "/a" } rfl (by decide) (by decide) (by decide)
  exact ⟨e, he, h1, h4, h2, h3⟩

/-- Object-store client configuration (`services/storage.rs`,
    struct `StorageClient`: the bucket handle plus compression settings). -/
structure StorageClient where
  compress_content : Bool
  compress_min_size : Nat

/-- Compression choice of `StorageClient::upload_content`: gzip exactly when
    compression is enabled and the body length strictly exceeds the
    configured minimum. -/
def choose_compression (c : StorageClient) (len : Nat) : CompressionType :=
  if c.compress_content && decide (c.compress_min_size < len) then CompressionType.gzip
  else CompressionType.none

/-- Static collaborators of one `QueueProcessor`: URL parser, network, HTML
    parser, digest, optional storage client, whether a search client is
    configured, and the user agent. -/
structure PipelineConfig where
  parse : String → Option Url
  net : Net
  parseHtml : String → HtmlParse
  md5 : String → List Nat
  storage : Option StorageClient
  searchConfigured : Bool
  user_agent : String

/-- Observable outcome of processing one queue entry: the database state, a
    flag for whether the search adapter was invoked, whether any network
    request was issued, the queue rows inserted by link discovery, and the
    classified failure, if any. -/
structure PipelineEffects where
  db : DbState
  searchInvoked : Bool
  networkCalled : Bool
  enqueued : List CrawlQueueEntry
  failure : Option (CrawlErrorType × String)

/-- The staged pipeline for one queue entry
    (`QueueProcessor::process_crawl_entry` and `process_post_crawl`):
    fetch, robots check, content check, mandatory storage upload, page row
    creation and upsert, then indexing unless `noindex` and link discovery
    unless `nofollow`. -/
def process_crawl_entry (cfg : PipelineConfig) (now : Int) (storage_id : Nat)
    (s : DbState) (entry : CrawlQueueEntry) : PipelineEffects :=
  let rn := crawl_url cfg.parse cfg.net { url := entry.url, user_agent := cfg.user_agent }
  let result := rn.1
  let networkCalled := rn.2
  if result.allowed_by_robots = false then
    { db := s, searchInvoked := false, networkCalled := networkCalled, enqueued := [],
      failure := some (CrawlErrorType.robotsDisallowed, "Crawling disallowed by robots.txt") }
  else
    match result.content with
    | Option.none =>
      { db := s, searchInvoked := false, networkCalled := networkCalled, enqueued := [],
        failure := some (CrawlErrorType.fetchError, result.error.getD ("No content retrieved")) }
    | some content =>
      match cfg.storage with
      | Option.none =>
        { db := s, searchInvoked := false, networkCalled := networkCalled, enqueued := [],
          failure := some (CrawlErrorType.storageError, "Storage client not configured") }
      | some storage_client =>
        let compression_type := choose_compression storage_client content.utf8ByteSize
        match create_crawled_page cfg.parse cfg.md5 now s entry result
            (some storage_id) compression_type with
        | Option.none =>
          { db := s, searchInvoked := false, networkCalled := networkCalled, enqueued := [],
            failure := some (CrawlErrorType.databaseError, "Failed to create page") }
        | some crawled_page =>
          let s1 := upsert_crawled_page s crawled_page
          let doc := cfg.parseHtml content
          let robots_directives := get_robots_directives doc result.x_robots_tag
          let searchInvoked := !robots_directives.noindex && cfg.searchConfigured
          if robots_directives.nofollow then
            { db := s1, searchInvoked := searchInvoked, networkCalled := networkCalled,
              enqueued := [], failure := Option.none }
          else
            let em := enqueue_meet_links cfg.parse now s1 doc.links entry
            { db := em.1, searchInvoked := searchInvoked, networkCalled := networkCalled,
              enqueued := em.2, failure := Option.none }

/-- The failure-handling wrapper of `QueueProcessor::process_next_entry`:
    a classified failure is passed to `handle_crawl_failure`. -/
def process_entry_with_failure_handling (cfg : PipelineConfig) (now : Int)
    (storage_id : Nat) (s : DbState) (entry : CrawlQueueEntry) : PipelineEffects :=
  let eff := process_crawl_entry cfg now storage_id s entry
  match eff.failure with
  | some f => { eff with db := handle_crawl_failure cfg.parse now eff.db entry f.1 f.2 }
  | Option.none => eff

theorem enqueue_link_pages (parse : String → Option Url) (now : Int) (s : DbState)
    (link : String) (pe : CrawlQueueEntry) :
    (enqueue_link parse now s link pe).1.pages = s.pages := by
  unfold enqueue_link
  cases parse link
  · rfl
  · dsimp only
    split
    · rfl
    · split
      · rfl
      · split
        · rfl
        · rfl

theorem enqueue_meet_links_pages (parse : String → Option Url) (now : Int)
    (links : List String) :
    ∀ (s : DbState) (pe : CrawlQueueEntry),
      (enqueue_meet_links parse now s links pe).1.pages = s.pages := by
  induction links with
  | nil => intro s pe; rfl
  | cons l rest ih =>
    intro s pe
    show (enqueue_meet_links parse now (enqueue_link parse now s l pe).1 rest pe).1.pages
      = s.pages
    rw [ih, enqueue_link_pages]

theorem get_crawled_page_pages_eq (s1 s2 : DbState) (d p : String)
    (h : s1.pages = s2.pages) :
    get_crawled_page s1 d p = get_crawled_page s2 d p := by
  simp [get_crawled_page, h]

theorem get_crawled_page_upsert (s : DbState) (p : CrawledPage) :
    get_crawled_page (upsert_crawled_page s p) p.domain p.url_path = some p := by
  simp [get_crawled_page, upsert_crawled_page, List.find?]

/-- C3 (amended): a queue entry whose URL fails to parse triggers no network
    call, and the pipeline records a CrawlError classified as
    robots_disallowed — the fetcher reports an unparsable URL with
    `allowed_by_robots = false`, so the robots branch classifies it — which
    is terminal, so nothing is requeued and no page row is written. -/
theorem invalid_url_entry_spec (cfg : PipelineConfig) (now : Int) (sid : Nat)
    (s : DbState) (entry : CrawlQueueEntry)
    (hp : cfg.parse entry.url = Option.none) :
    (process_entry_with_failure_handling cfg now sid s entry).networkCalled = false
    ∧ (∃ e, (process_entry_with_failure_handling cfg now sid s entry).db.errors
          = e :: s.errors
        ∧ e.error_type = CrawlErrorType.robotsDisallowed
        ∧ e.url = entry.url)
    ∧ (process_entry_with_failure_handling cfg now sid s entry).db.queue = s.queue
    ∧ (process_entry_with_failure_handling cfg now sid s entry).db.pages = s.pages := by
  simp only [process_entry_with_failure_handling, process_crawl_entry, crawl_url, hp,
    handle_crawl_failure, log_crawl_error, requeue_with_retry, insert_queue_entry,
    should_retry]
  refine ⟨rfl, ⟨_, rfl, rfl, rfl⟩, rfl, rfl⟩

/-- Fixture for the C3 counterexample: no URL parses, nothing else is
    configured. -/
def cfgInvalid : PipelineConfig :=
  { parse := fun _ => Option.none
    net := { robots_allows := fun _ _ => true, fetch := fun _ => Except.error ("net") }
    parseHtml := fun _ => { metaElems := [], links := [] }
    md5 := fun _ => []
    storage := Option.none
    searchConfigured := false
    user_agent := "LalaSearchBot" }

/-- Counterexample to C3 as stated: processing an entry with an unparsable
    URL records a CrawlError whose error_type is robots_disallowed, not
    invalid_url. -/
theorem invalid_url_entry_counterexample :
    ((process_entry_with_failure_handling cfgInvalid 0 0 dbW entryW).db.errors.map
        (fun e => e.error_type)) = [CrawlErrorType.robotsDisallowed]
    ∧ CrawlErrorType.robotsDisallowed ≠ CrawlErrorType.invalidUrl := by
  exact ⟨rfl, by decide⟩

/-- Witness for C3's amended statement at the concrete fixture. -/
theorem invalid_url_entry_spec_witness :
    (process_entry_with_failure_handling cfgInvalid 0 0 dbW entryW).networkCalled = false
    ∧ (process_entry_with_failure_handling cfgInvalid 0 0 dbW entryW).db.queue
        = dbW.queue := by
  have h := invalid_url_entry_spec cfgInvalid 0 0 dbW entryW rfl
  exact ⟨h.1, h.2.2.1⟩

/-- C5: with the effective directives the union of the meta robots content
    and the X-Robots-Tag header, `noindex` leaves the page row written but
    never invokes the search adapter, and `nofollow` enqueues zero new
    entries from the page. -/
theorem process_robots_directives_spec (cfg : PipelineConfig) (now : Int) (sid : Nat)
    (s : DbState) (entry : CrawlQueueEntry) (u : Url) (body : String)
    (tag : Option String) (client : StorageClient)
    (hp : cfg.parse entry.url = some u)
    (hr : cfg.net.robots_allows cfg.user_agent entry.url = true)
    (hf : cfg.net.fetch entry.url = Except.ok (body, tag))
    (hs : cfg.storage = some client) :
    ((get_robots_directives (cfg.parseHtml body) tag).noindex = true →
      (process_crawl_entry cfg now sid s entry).searchInvoked = false
      ∧ ∃ page, get_crawled_page (process_crawl_entry cfg now sid s entry).db
            (u.host.getD entry.domain) u.path = some page)
    ∧ ((get_robots_directives (cfg.parseHtml body) tag).nofollow = true →
      (process_crawl_entry cfg now sid s entry).enqueued = []
      ∧ (process_crawl_entry cfg now sid s entry).db.queue = s.queue) := by
  constructor
  · intro hnoindex
    by_cases hnf : (get_robots_directives (cfg.parseHtml body) tag).nofollow = true
    · constructor
      · simp [process_crawl_entry, crawl_url, hp, hr, hf, hs, create_crawled_page,
          hnoindex, hnf]
      · simp only [process_crawl_entry, crawl_url, hp, hr, hf, hs, create_crawled_page]
        simp only [hnf, if_true]
        exact ⟨_, get_crawled_page_upsert _ _⟩
    · constructor
      · simp [process_crawl_entry, crawl_url, hp, hr, hf, hs, create_crawled_page,
          hnoindex, hnf]
      · simp only [process_crawl_entry, crawl_url, hp, hr, hf, hs, create_crawled_page,
          if_true]
        rw [if_neg hnf]
        exact ⟨_, (get_crawled_page_pages_eq _ _ _ _
          (enqueue_meet_links_pages _ _ _ _ _)).trans (get_crawled_page_upsert _ _)⟩
  · intro hnofollow
    simp only [process_crawl_entry, crawl_url, hp, hr, hf, hs, create_crawled_page,
      if_true]
    simp only [hnofollow, if_true]
    exact ⟨rfl, rfl⟩

/-- Fixture for C5: the page is fetched successfully and the response
    carries an `X-Robots-Tag: noindex, nofollow` header. -/
def cfgW : PipelineConfig :=
  { parse := parseW
    net := { robots_allows := fun _ _ => true
             fetch := fun _ => Except.ok ("<p>hi</p>", some ("noindex, nofollow")) }
    parseHtml := fun _ => { metaElems := [], links := ["https://example.org/b"] }
    md5 := md5W
    storage := some { compress_content := true, compress_min_size := 1024 }
    searchConfigured := true
    user_agent := "LalaSearchBot" }

/-- Witness for C5 at the concrete fixture: the search adapter is not
    invoked and no links are enqueued. -/
theorem process_robots_directives_spec_witness :
    (process_crawl_entry cfgW 0 0 dbW entryW).searchInvoked = false
    ∧ (process_crawl_entry cfgW 0 0 dbW entryW).enqueued = [] := by
  have h := process_robots_directives_spec cfgW 0 0 dbW entryW
    { host := some ("example.org"), path := "/a" } ("<p>hi</p>")
    (some ("noindex, nofollow")) { compress_content := true, compress_min_size := 1024 }
    rfl rfl rfl rfl
  exact ⟨(h.1 (by decide)).1, (h.2 (by decide)).1⟩

/-- Store an object in the bucket (`Bucket::put_object_with_content_type`,
    modelled as an association list keyed by the object key). -/
def put_object (bucket : List (String × List Nat)) (key : String) (data : List Nat) :
    List (String × List Nat) :=
  (key, data) :: bucket

/-- Fetch an object from the bucket (`Bucket::get_object`). -/
def get_object (bucket : List (String × List Nat)) (key : String) :
    Option (List Nat) :=
  match bucket.find? (fun kv => kv.1 == key) with
  | some kv => some kv.2
  | Option.none => Option.none

/-- Object key layout: `{storage_id}.{ext}` (`StorageClient::upload_content`
    and `get_content`). -/
def object_key (storage_id : Nat) (ct : CompressionType) : String :=
  toString storage_id ++ "." ++ ct.file_extension

/-- Upload a body (`StorageClient::upload_content`).  The body is given as
    its UTF-8 bytes (`content.as_bytes()`); `compress` is the external flate2
    gzip encoder; `storage_id` stands for the generated `Uuid::now_v7()`.
    Returns the (storage_id, compression_type) pair and the new bucket. -/
def upload_content (c : StorageClient) (compress : List Nat → List Nat)
    (storage_id : Nat) (bucket : List (String × List Nat)) (content : List Nat) :
    (Nat × CompressionType) × List (String × List Nat) :=
  let compression_type := choose_compression c content.length
  let data : List Nat :=
    match compression_type with
    | CompressionType.gzip => compress content
    | CompressionType.none => content
  let key := object_key storage_id compression_type
  ((storage_id, compression_type), put_object bucket key data)

/-- Retrieve a body (`StorageClient::get_content`).  `decompress` is the
    external flate2 gzip decoder; the final `String::from_utf8` step is the
    identity on the byte level, since the stored bytes of a Rust `String`
    are valid UTF-8. -/
def get_content (decompress : List Nat → Except String (List Nat))
    (bucket : List (String × List Nat)) (storage_id : Nat)
    (compression_type : CompressionType) : Except String (List Nat) :=
  let key := object_key storage_id compression_type
  match get_object bucket key with
  | Option.none => Except.error ("Failed to get object from S3")
  | some data =>
    match compression_type with
    | CompressionType.gzip => decompress data
    | CompressionType.none => Except.ok data

/-- C7: reading back an uploaded body with the returned
    (storage_id, compression_type) yields exactly the body, assuming the
    flate2 decoder inverts the encoder; and the chosen compression is gzip
    precisely when compression is enabled and the body length strictly
    exceeds the configured minimum. -/
theorem storage_roundtrip_spec (c : StorageClient) (compress : List Nat → List Nat)
    (decompress : List Nat → Except String (List Nat)) (storage_id : Nat)
    (bucket : List (String × List Nat)) (content : List Nat)
    (hinv : ∀ d, decompress (compress d) = Except.ok d) :
    get_content decompress (upload_content c compress storage_id bucket content).2
        storage_id (upload_content c compress storage_id bucket content).1.2
      = Except.ok content
    ∧ ((upload_content c compress storage_id bucket content).1.2 = CompressionType.gzip
        ↔ (c.compress_content = true ∧ c.compress_min_size < content.length)) := by
  by_cases hc : c.compress_content = true ∧ c.compress_min_size < content.length
  · constructor
    · simp [upload_content, get_content, get_object, put_object, choose_compression,
        hc, hinv]
    · simp [upload_content, choose_compression, hc]
  · constructor
    · simp [upload_content, get_content, get_object, put_object, choose_compression, hc]
    · simp [upload_content, choose_compression, hc]

/-- Witness for C7: a two-byte body with compression enabled and minimum
    size one is gzipped (here by the identity coder) and reads back intact. -/
theorem storage_roundtrip_spec_witness :
    get_content Except.ok
        (upload_content { compress_content := true, compress_min_size := 1 }
          (fun d => d) 9 [] [104, 105]).2 9
        (upload_content { compress_content := true, compress_min_size := 1 }
          (fun d => d) 9 [] [104, 105]).1.2
      = Except.ok [104, 105]
    ∧ (upload_content { compress_content := true, compress_min_size := 1 }
          (fun d => d) 9 [] [104, 105]).1.2 = CompressionType.gzip := by
  have h := storage_roundtrip_spec { compress_content := true, compress_min_size := 1 }
    (fun d => d) Except.ok 9 [] [104, 105] (fun d => rfl)
  exact ⟨h.1, h.2.mpr (by decide)⟩

/-- Request body of POST /queue/add (`models/queue.rs`,
    struct `AddToQueueRequest`). -/
structure AddToQueueRequest where
  url : String
  priority : Int

/-- Serde default for the priority field (`models/queue.rs`,
    fn `default_priority`). -/
def default_priority : Int := 1

/-- Deserialization of the request JSON: a missing priority takes the serde
    default. -/
def addToQueueRequestOfJson (url : String) (priority : Option Int) : AddToQueueRequest :=
  { url := url, priority := priority.getD default_priority }

/-- Response body of POST /queue/add (`models/queue.rs`,
    struct `AddToQueueResponse`). -/
structure AddToQueueResponse where
  success : Bool
  message : String
  url : String
  domain : String
deriving DecidableEq, Repr

/-- The enqueue handler (`app.rs`, fn `add_to_queue_handler`): 400 for an
    unparsable URL or a URL without a host, 403 when the host is not in the
    allow-list (all before any DB write), otherwise insert one queue row with
    the request's priority, `attempt_count = 0` and
    `scheduled_at = created_at = now`.  Returns the HTTP outcome and the
    resulting database state. -/
def add_to_queue_handler (parse : String → Option Url) (now : Int) (s : DbState)
    (payload : AddToQueueRequest) :
    Except (Nat × String) AddToQueueResponse × DbState :=
  match parse payload.url with
  | Option.none => (Except.error (400, "Invalid URL"), s)
  | some parsed_url =>
    match parsed_url.host with
    | Option.none => (Except.error (400, "URL has no host"), s)
    | some domain =>
      if is_domain_allowed s domain = false then
        (Except.error (403, "Domain is not in the allowed domains list"), s)
      else
        let entry : CrawlQueueEntry :=
          { priority := payload.priority
            scheduled_at := now
            url := payload.url
            domain := domain
            last_attempt_at := Option.none
            attempt_count := 0
            created_at := now }
        (Except.ok
          { success := true
            message := "URL added to crawl queue successfully"
            url := payload.url
            domain := domain },
         insert_queue_entry s entry)

/-- HTTP status of a handler outcome (200 on success). -/
def response_status (r : Except (Nat × String) AddToQueueResponse) : Nat :=
  match r with
  | Except.error e => e.1
  | Except.ok _ => 200

/-- C8: an unparsable URL or a URL without a host yields 400 with the
    database untouched; a host missing from AllowedDomain yields 403 with
    the database untouched; otherwise exactly one queue row is inserted with
    the request's priority (default 1 when the field is omitted),
    `attempt_count = 0` and `scheduled_at = created_at = now`. -/
theorem add_to_queue_handler_spec (parse : String → Option Url) (now : Int)
    (s : DbState) (payload : AddToQueueRequest) :
    (parse payload.url = Option.none →
      response_status (add_to_queue_handler parse now s payload).1 = 400
      ∧ (add_to_queue_handler parse now s payload).2 = s)
    ∧ (∀ u, parse payload.url = some u → u.host = Option.none →
      response_status (add_to_queue_handler parse now s payload).1 = 400
      ∧ (add_to_queue_handler parse now s payload).2 = s)
    ∧ (∀ u d, parse payload.url = some u → u.host = some d →
      is_domain_allowed s d = false →
      response_status (add_to_queue_handler parse now s payload).1 = 403
      ∧ (add_to_queue_handler parse now s payload).2 = s)
    ∧ (∀ u d, parse payload.url = some u → u.host = some d →
      is_domain_allowed s d = true →
      response_status (add_to_queue_handler parse now s payload).1 = 200
      ∧ ∃ e, (add_to_queue_handler parse now s payload).2 = insert_queue_entry s e
        ∧ e.priority = payload.priority
        ∧ e.attempt_count = 0
        ∧ e.scheduled_at = now
        ∧ e.created_at = now
        ∧ e.url = payload.url
        ∧ e.domain = d)
    ∧ (∀ url, (addToQueueRequestOfJson url Option.none).priority = 1
        ∧ ∀ p, (addToQueueRequestOfJson url (some p)).priority = p) := by
  refine ⟨?_, ?_, ?_, ?_, ?_⟩
  · intro hp
    simp [add_to_queue_handler, response_status, hp]
  · intro u hp hhost
    simp [add_to_queue_handler, response_status, hp, hhost]
  · intro u d hp hhost hallow
    simp [add_to_queue_handler, response_status, hp, hhost, hallow]
  · intro u d hp hhost hallow
    constructor
    · simp [add_to_queue_handler, response_status, hp, hhost, hallow]
    · exact ⟨{ priority := payload.priority, scheduled_at := now, url := payload.url,
               domain := d, last_attempt_at := Option.none, attempt_count := 0,
               created_at := now },
        by simp [add_to_queue_handler, hp, hhost, hallow], rfl, rfl, rfl, rfl, rfl, rfl⟩
  · intro url
    exact ⟨rfl, fun p => rfl⟩

/-- Witness for C8: with an allow-listed host the handler returns 200 and
    inserts a row with the default priority 1. -/
theorem add_to_queue_handler_spec_witness :
    response_status (add_to_queue_handler parseW 4 dbW
        (addToQueueRequestOfJson ("https://example.org/a") Option.none)).1 = 200
    ∧ ∃ e, (add_to_queue_handler parseW 4 dbW
          (addToQueueRequestOfJson ("https://example.org/a") Option.none)).2
        = insert_queue_entry dbW e
      ∧ e.priority = 1 ∧ e.attempt_count = 0 := by
  obtain ⟨hst, e, he, h1, h2, h3, h4, h5, h6⟩ :=
    (add_to_queue_handler_spec parseW 4 dbW
        (addToQueueRequestOfJson ("https://example.org/a") Option.none)).2.2.2.1
      { host := some ("example.org"), path := "/a" } ("example.org") rfl rfl (by decide)
  exact ⟨hst, e, he, by rw [h1]; rfl, h2⟩

/-- Byte list of an ASCII string (for ASCII, Rust's UTF-8 bytes coincide
    with the character codes). -/
def str_bytes (s : String) : List Nat :=
  s.data.map (fun c => c.toNat)

/-- Rust `str::is_char_boundary` over the UTF-8 bytes: index 0 is a
    boundary; past-the-end only at exactly the length; otherwise the byte
    must not be a UTF-8 continuation byte (`0x80..0xBF`). -/
def is_char_boundary (s : List Nat) (i : Nat) : Bool :=
  if i == 0 then true
  else
    match s.get? i with
    | Option.none => i == s.length
    | some b => decide (b < 128) || decide (192 ≤ b)

/-- Rust slice `&s[..i]`: `Option.none` models the panic on an out-of-range
    or non-boundary index. -/
def slice_to (s : List Nat) (i : Nat) : Option (List Nat) :=
  if is_char_boundary s i then some (s.take i) else Option.none

/-- Rust slice `&s[i..]`. -/
def slice_from (s : List Nat) (i : Nat) : Option (List Nat) :=
  if is_char_boundary s i then some (s.drop i) else Option.none

/-- Rust slice `&s[a..b]`. -/
def slice_range (s : List Nat) (a b : Nat) : Option (List Nat) :=
  if decide (a ≤ b) && is_char_boundary s a && is_char_boundary s b then
    some ((s.take b).drop a)
  else Option.none

/-- The excerpt computation of `QueueProcessor::index_document_to_search`:
    `if clean_content.len() > 500 { format!("{}...", &clean_content[..500]) }
    else clean_content`, over the UTF-8 bytes of the cleaned content.
    `Option.none` models the byte-slice panic. -/
def excerpt_of (clean_content : List Nat) : Option (List Nat) :=
  if decide (500 < clean_content.length) then
    match slice_to clean_content 500 with
    | some sliced => some (sliced ++ [46, 46, 46])
    | Option.none => Option.none
  else some clean_content

set_option maxRecDepth 10000 in
/-- C9 evidence: on a cleaned content of 499 ASCII bytes followed by the
    two-byte character U+042F, byte index 500 is not a char boundary, so the
    slice `&clean_content[..500]` panics; on all-ASCII content of the same
    length the excerpt is the first 500 code units followed by `...`. -/
theorem excerpt_slice_panics :
    excerpt_of (List.replicate 499 97 ++ [208, 175]) = Option.none
    ∧ 500 < (List.replicate 499 97 ++ [208, 175]).length
    ∧ excerpt_of (List.replicate 501 97)
        = some (List.replicate 500 97 ++ [46, 46, 46]) := by
  refine ⟨by rfl, by decide, by rfl⟩

/-- Rust `String::to_lowercase` over UTF-8 bytes, modelled for inputs over
    ASCII plus U+0130 (LATIN CAPITAL LETTER I WITH DOT ABOVE, bytes `C4 B0`),
    whose Unicode lowercase mapping is the two-character, three-byte sequence
    `i` U+0307 (bytes `69 CC 87`); the stdlib implements exactly this
    mapping.  ASCII A-Z lowercases in place; other bytes are unchanged. -/
def to_lowercase_model : List Nat → List Nat
  | [] => []
  | 196 :: 176 :: rest => 105 :: 204 :: 135 :: to_lowercase_model rest
  | b :: rest => (if 65 ≤ b ∧ b ≤ 90 then b + 32 else b) :: to_lowercase_model rest

/-- Rust `str::find` returning the byte index of the first match. -/
def find_sub_from (needle : List Nat) : List Nat → Nat → Option Nat
  | [], i => if starts_with_seq ([] : List Nat) needle then some i else Option.none
  | b :: rest, i =>
    if starts_with_seq (b :: rest) needle then some i
    else find_sub_from needle rest (i + 1)

/-- Rust `hay.find(needle)`. -/
def find_sub (hay needle : List Nat) : Option Nat :=
  find_sub_from needle hay 0

/-- ASCII whitespace recognizer for `str::trim` (the inputs at issue only
    carry ASCII whitespace). -/
def is_ascii_ws (b : Nat) : Bool :=
  b == 32 || b == 9 || b == 10 || b == 13 || b == 12

/-- Rust `str::trim` over bytes. -/
def trim_bytes (s : List Nat) : List Nat :=
  ((s.dropWhile is_ascii_ws).reverse.dropWhile is_ascii_ws).reverse

/-- One branch of `extract_title` (`queue_processor.rs`): find the opening
    tag in the lowercased HTML, find `>` in `&html[start..]`, find the
    closing tag in `&html_lower[content_start..]`, and slice the title out
    of `html` — all indices computed on `html_lower` but applied to `html`.
    Outer `Option.none` models a slice panic; `some Option.none` means this
    branch found no title and control falls through. -/
def title_from_tag (openTag closeTag : List Nat) (html html_lower : List Nat) :
    Option (Option (List Nat)) :=
  match find_sub html_lower openTag with
  | Option.none => some Option.none
  | some start =>
    match slice_from html start with
    | Option.none => Option.none
    | some tail =>
      match find_sub tail [62] with
      | Option.none => some Option.none
      | some tag_end =>
        let content_start := start + tag_end + 1
        match slice_from html_lower content_start with
        | Option.none => Option.none
        | some lowTail =>
          match find_sub lowTail closeTag with
          | Option.none => some Option.none
          | some title_end =>
            match slice_range html content_start (content_start + title_end) with
            | Option.none => Option.none
            | some raw =>
              let t := trim_bytes raw
              if t.length == 0 then some Option.none else some (some t)

/-- Title extraction (`queue_processor.rs`, fn `extract_title`): try the
    `<title>` tag, then the first `<h1>`.  Outer `Option.none` models a
    panic; the inner option is the function's `Option<String>` result. -/
def extract_title_model (html : List Nat) : Option (Option (List Nat)) :=
  let html_lower := to_lowercase_model html
  match title_from_tag (str_bytes ("<title")) (str_bytes ("</title>"))
      html html_lower with
  | Option.none => Option.none
  | some (some t) => some (some t)
  | some Option.none =>
    title_from_tag (str_bytes ("<h1")) (str_bytes ("</h1>")) html html_lower

/-- C10 failing input: ten U+0130 characters followed by
    `<title>a</title>`.  Lowercasing grows each U+0130 from two bytes to
    three, so every index found in `html_lower` is shifted against `html`. -/
def c10_failing_html : List Nat :=
  (List.replicate 10 [196, 176]).flatten ++ str_bytes ("<title>a</title>")

/-- C10 evidence: on the shifted input the title slice
    `&html[content_start..content_start + title_end]` is out of bounds
    (36..38 of a 36-byte string), a panic; on ASCII input — where
    lowercasing preserves byte positions — the model extracts the title,
    matching the repository's own unit test. -/
theorem extract_title_lowercase_panics :
    extract_title_model c10_failing_html = Option.none
    ∧ extract_title_model
        (str_bytes ("<html><head><title>My Page Title</title></head></html>"))
      = some (some (str_bytes ("My Page Title"))) := by
  exact ⟨by rfl, by rfl⟩
